import Mathlib

/-!
Verification development for the Evidencias download pipeline
(src/api/app/downloader.py).  The Python code is shallowly embedded:
pure helpers become Lean functions, the filesystem becomes an explicit
map from paths to file sizes, the network and the image codecs become
oracle parameters, and the thread-safe counters become an explicit
record threaded through the functions.  Counter updates in the source
are performed under a single lock and commute, so the concurrent pool
is modelled by a sequential fold over the task list.
-/

namespace Evidencias

/-! ## Shared statistics (EvidenciasDownloader.download_stats) -/

/-- The shared counter record initialised in `EvidenciasDownloader.__init__`. -/
structure Stats where
  total : Nat
  successful : Nat
  failed : Nat
  skipped : Nat
  converted : Nat
  conversion_failed : Nat
deriving DecidableEq

/-- All counters start at zero. -/
def Stats.zero : Stats := ⟨0, 0, 0, 0, 0, 0⟩

def Stats.incSuccessful (s : Stats) : Stats :=
  ⟨s.total, s.successful + 1, s.failed, s.skipped, s.converted, s.conversion_failed⟩

def Stats.incFailed (s : Stats) : Stats :=
  ⟨s.total, s.successful, s.failed + 1, s.skipped, s.converted, s.conversion_failed⟩

def Stats.incSkipped (s : Stats) : Stats :=
  ⟨s.total, s.successful, s.failed, s.skipped + 1, s.converted, s.conversion_failed⟩

def Stats.incConverted (s : Stats) : Stats :=
  ⟨s.total, s.successful, s.failed, s.skipped, s.converted + 1, s.conversion_failed⟩

def Stats.incConversionFailed (s : Stats) : Stats :=
  ⟨s.total, s.successful, s.failed, s.skipped, s.converted, s.conversion_failed + 1⟩

def Stats.addTotal (s : Stats) (n : Nat) : Stats :=
  ⟨s.total + n, s.successful, s.failed, s.skipped, s.converted, s.conversion_failed⟩

/-! ## Filesystem model

A filesystem maps a path to the size of the file stored there (`none`
when no file exists).  Directories are not modelled, so `os.makedirs`
is a no-op on this abstraction. -/

abbrev FS := String → Option Nat

/-- Model of `os.path.exists`. -/
def os_path_exists (fs : FS) (p : String) : Bool := (fs p).isSome

/-- Model of `os.path.getsize` (0 for a missing file; the code only
reads sizes of files it has checked to exist). -/
def os_path_getsize (fs : FS) (p : String) : Nat := (fs p).getD 0

/-- Creating or overwriting a file of a given size. -/
def FS.write (fs : FS) (p : String) (n : Nat) : FS :=
  fun q => if q = p then some n else fs q

/-- Model of `os.remove`. -/
def FS.remove (fs : FS) (p : String) : FS :=
  fun q => if q = p then none else fs q

/-- Model of `os.rename`. -/
def FS.rename (fs : FS) (src dst : String) : FS :=
  fun q => if q = dst then fs src else if q = src then none else fs q

/-- Test whether a path already ends with a separator. -/
def ends_with_slash (s : String) : Bool := s.data.getLast? = some '/'

/-- Model of `os.path.join` for the cases the pipeline exercises
(relative second component). -/
def os_path_join (a b : String) : String :=
  if a = "" then b
  else if ends_with_slash a then a ++ b
  else a ++ ("/") ++ b

/-- Model of `str.lower` (character-wise). -/
def str_lower (s : String) : String := String.mk (s.data.map Char.toLower)

/-- Model of `str.strip` (drop whitespace from both ends). -/
def py_strip (s : String) : String :=
  String.mk (((s.data.dropWhile Char.isWhitespace).reverse.dropWhile Char.isWhitespace).reverse)

/-- Model of `os.path.splitext`: split off the extension at the last
dot of the basename, except when every character of the basename before
that dot is itself a dot (Python keeps dotfiles such as `.bashrc`
whole). -/
def os_path_splitext (p : String) : String × String :=
  let cs := p.data
  let base := (cs.reverse.takeWhile (fun c => ¬ c = '/')).reverse
  let tailRev := base.reverse.takeWhile (fun c => ¬ c = '.')
  if ('.' ∈ base) ∧ (base.take (base.length - (tailRev.length + 1))).any (fun c => ¬ c = '.')
  then (String.mk (cs.take (cs.length - (tailRev.length + 1))), String.mk ('.' :: tailRev.reverse))
  else (p, "")

/-! ## Filename sanitizer (EvidenciasDownloader.clean_filename) -/

/-- The accent replacement table of `clean_filename`.  The source loops
over the table applying `str.replace` for each pair; since every key
and every value is a single character and no value is itself a key, the
loop is a single character map. -/
def replAccent (c : Char) : Char :=
  if c = 'ó' then 'o' else
  if c = 'ú' then 'u' else
  if c = 'í' then 'i' else
  if c = 'á' then 'a' else
  if c = 'é' then 'e' else
  if c = 'ñ' then 'n' else
  if c = 'ü' then 'u' else
  if c = 'Ó' then 'O' else
  if c = 'Ú' then 'U' else
  if c = 'Í' then 'I' else
  if c = 'Á' then 'A' else
  if c = 'É' then 'E' else
  if c = 'Ñ' then 'N' else
  if c = 'Ü' then 'U' else c

/-- The characters `clean_filename` replaces with an underscore. -/
def invalid_chars : List Char := ['<', '>', ':', '"', '/', '\\', '|', '?', '*']

/-- Underscore substitution for invalid filename characters.  As with
the accent table, the source's loop of single-character replaces is a
single character map because the replacement `_` is not itself in the
list. -/
def replInvalid (c : Char) : Char := if c ∈ invalid_chars then '_' else c

/-- Model of `EvidenciasDownloader.clean_filename`.  A `none` input
stands for `None`/`NaN` (the `pd.isna` branch); an empty string hits
the `not filename` branch.  Replacement passes are followed by the
200-character truncation `filename[:200]`. -/
def clean_filename (filename : Option String) : String :=
  match filename with
  | none => ("archivo_sin_nombre")
  | some s =>
    if s = "" then ("archivo_sin_nombre")
    else String.mk ((((s.data).map replAccent).map replInvalid).take 200)

/-! ## URL path and extension (EvidenciasDownloader.get_file_extension) -/

/-- Python `str.split('.')` on a character list. -/
def splitDot : List Char → List (List Char)
  | [] => [[]]
  | c :: cs =>
    match splitDot cs with
    | [] => [[]]
    | h :: t => if c = '.' then [] :: h :: t else (c :: h) :: t

/-- Characters allowed after the first character of a URL scheme. -/
def scheme_char (c : Char) : Bool := c.isAlphanum || c = '+' || c = '-' || c = '.'

/-- WHATWG C0 control and space characters; `urlsplit` strips them
from the start of the URL. -/
def c0_control_or_space (c : Char) : Bool := c.val ≤ 32

/-- The characters `urlsplit` deletes from the whole URL before
parsing (its table of tab, CR and LF bytes to remove). -/
def tab_cr_lf (c : Char) : Bool := c = '\t' || c = '\r' || c = '\n'

/-- Model of the path component returned by `urllib.parse.urlsplit`,
CPython 3.11: strip leading C0-control/space characters, delete every
tab, CR and LF, strip a valid scheme, strip a `//netloc` prefix —
where a netloc holding a `[` without `]` or a `]` without `[` makes
the library raise `ValueError("Invalid IPv6 URL")`, modelled as
`none` — then drop the fragment (first `#`) and the query
(first `?`). -/
def urlsplit_path (u0 : List Char) : Option (List Char) :=
  let u := (u0.dropWhile c0_control_or_space).filter (fun c => ¬ tab_cr_lf c = true)
  let pre := u.takeWhile (fun c => ¬ c = ':')
  let rest :=
    if pre.length < u.length ∧ 0 < pre.length ∧
       (pre.headD ' ').isAlpha ∧ pre.all scheme_char
    then u.drop (pre.length + 1) else u
  if rest.take 2 = ['/', '/'] then
    let netloc := (rest.drop 2).takeWhile (fun c => ¬ (c = '/' ∨ c = '?' ∨ c = '#'))
    if ('[' ∈ netloc ∧ ¬ ']' ∈ netloc) ∨ (']' ∈ netloc ∧ ¬ '[' ∈ netloc) then none
    else
      let after := (rest.drop 2).dropWhile (fun c => ¬ (c = '/' ∨ c = '?' ∨ c = '#'))
      some ((after.takeWhile (fun c => ¬ c = '#')).takeWhile (fun c => ¬ c = '?'))
  else some ((rest.takeWhile (fun c => ¬ c = '#')).takeWhile (fun c => ¬ c = '?'))

/-- Model of the params split performed by `urllib.parse.urlparse` on
the last path segment (cut at the first `;` of the last segment). -/
def split_params (p : List Char) : List Char :=
  if '/' ∈ p then
    let seg := (p.reverse.takeWhile (fun c => ¬ c = '/')).reverse
    if ';' ∈ seg then p.take (p.length - (seg.dropWhile (fun c => ¬ c = ';')).length)
    else p
  else if ';' ∈ p then p.takeWhile (fun c => ¬ c = ';') else p

/-- The `path` attribute of `urllib.parse.urlparse(url)`, `none` when
the library raises. -/
def urlparse_path (u : String) : Option String :=
  (urlsplit_path u.data).map (fun p => String.mk (split_params p))

/-- Model of `EvidenciasDownloader.get_file_extension`: take the path
of the URL, and if it contains a dot return `'.' + path.split('.')[-1]`
when that string is at most 10 characters, otherwise the empty
string.  A parse error (`urlparse_path = none`) lands in the source's
`except Exception` handler, which falls through to `return ""`.  The
`not url` guard of the source is the empty-string test (the function
is only called on task URLs, which are strings, so the `pd.isna` test
is always false). -/
def get_file_extension (url : String) : String :=
  if url = "" then "" else
  match urlparse_path url with
  | none => ""
  | some path =>
    if '.' ∈ path.data then
      let ext := '.' :: (splitDot path.data).getLastD []
      if ext.length ≤ 10 then String.mk ext else ""
    else ""

/-! ## Normalizer (EvidenciasDownloader.post_process_file)

The HEIC and PDF codecs are external collaborators; their success or
failure is an oracle parameter `convOk`, and the size of the encoded
JPG is abstracted as 1 (a non-zero size; no claim depends on it).
`convert_heic_to_jpg` writes `<base>.jpg` and `convert_pdf_to_jpg`
writes `os.path.join(folder, base_filename + ".jpg")`; on the paths
built by the pipeline (which contain a separator) these coincide with
`base_path ++ ".jpg"`, the path the caller returns. -/

/-- Model of `EvidenciasDownloader.post_process_file`.  Returns the
final path together with the updated filesystem and counters. -/
def post_process_file (convert_files : Bool) (file_path : String) (convOk : Bool)
    (fs : FS) (stats : Stats) : String × FS × Stats :=
  if convert_files = false then (file_path, fs, stats)
  else
    let file_ext := str_lower (os_path_splitext file_path).2
    let base_path := (os_path_splitext file_path).1
    if file_ext = (".heic") then
      let jpg_path := base_path ++ (".jpg")
      if convOk then (jpg_path, FS.remove (FS.write fs jpg_path 1) file_path, stats.incConverted)
      else (file_path, fs, stats.incConversionFailed)
    else if file_ext = (".pdf") then
      let jpg_path := base_path ++ (".jpg")
      if convOk then (jpg_path, FS.remove (FS.write fs jpg_path 1) file_path, stats.incConverted)
      else (file_path, fs, stats.incConversionFailed)
    else (file_path, fs, stats)

/-! ## Fetcher (EvidenciasDownloader.download_single_file) -/

/-- Oracle for one HTTP GET of `self.session` (retries and backoff
happen inside the transport adapter): the request raises before any
byte is written (`connErr`), the body stream raises after some bytes
were written to the temp file (`streamErr`), or the stream completes
with a body of the given size (`ok`). -/
inductive NetResult
  | connErr : NetResult
  | streamErr : Nat → NetResult
  | ok : Nat → NetResult
deriving DecidableEq

/-- Result of one `download_single_file` call: the returned boolean,
the filesystem and counters after the call, and whether an HTTP
request was issued. -/
structure DLResult where
  ret : Bool
  fs : FS
  stats : Stats
  netUsed : Bool

/-- Model of `EvidenciasDownloader.download_single_file`.  The empty
URL stands for the falsy values caught by `not url or pd.isna(url)`.
Filesystem primitives are assumed not to fail; the only failure
sources are the network oracle and the conversion oracle. -/
def download_single_file (convert_files : Bool) (url filename folder_path : String)
    (net : NetResult) (convOk : Bool) (fs : FS) (stats : Stats) : DLResult :=
  if url = "" then ⟨false, fs, stats, false⟩ else
  let base_filename := (os_path_splitext filename).1
  let original_ext := str_lower (os_path_splitext filename).2
  let jpg_path := os_path_join folder_path (base_filename ++ (".jpg"))
  if convert_files = true ∧ (original_ext = (".heic") ∨ original_ext = (".pdf")) ∧
     os_path_exists fs jpg_path = true ∧ 0 < os_path_getsize fs jpg_path then
    ⟨true, fs, stats.incSkipped, false⟩
  else
  let file_path := os_path_join folder_path filename
  if os_path_exists fs file_path = true ∧ 0 < os_path_getsize fs file_path ∧
     (convert_files = false ∨ ¬ (original_ext = (".heic") ∨ original_ext = (".pdf"))) then
    ⟨true, fs, stats.incSkipped, false⟩
  else
  match net with
  | NetResult.connErr => ⟨false, fs, stats.incFailed, true⟩
  | NetResult.streamErr n => ⟨false, FS.write fs (file_path ++ (".tmp")) n, stats.incFailed, true⟩
  | NetResult.ok n =>
    let temp_path := file_path ++ (".tmp")
    let fs1 := FS.write fs temp_path n
    if n = 0 then ⟨false, FS.remove fs1 temp_path, stats.incFailed, true⟩
    else
      let fs2 := FS.rename fs1 temp_path file_path
      let pp := post_process_file convert_files file_path convOk fs2 stats
      ⟨true, pp.2.1, (pp.2.2).incSuccessful, true⟩

/-! ## Task deriver (EvidenciasDownloader.prepare_download_tasks) -/

/-- One tabular row.  A cell is `none` when the column is absent from
the row or holds a `NaN` (both make `pd.notna(row.get(col))` false);
otherwise it holds `str(value)`. -/
structure Row where
  grupo : Option String
  sesion : Option String
  asistencia : Option String
  foto_inicial : Option String
  foto_final : Option String
deriving DecidableEq

/-- One download task dictionary. -/
structure Task where
  url : String
  filename : String
  folder_path : String
  grupo : String
  sesion : String
  tipo : String
deriving DecidableEq

/-- Tasks emitted for one column slot: skip an absent cell, strip the
value, skip it when empty, else build the filename from the session,
the slot kind and the URL extension. -/
def slot_task (session_folder grupo sesion : String) (cell : Option String)
    (tipo : String) : List Task :=
  match cell with
  | none => []
  | some v =>
    let url := py_strip v
    if url = "" then []
    else [⟨url, sesion ++ ("_") ++ tipo ++ get_file_extension url, session_folder, grupo, sesion, tipo⟩]

/-- Tasks emitted for one row of the DataFrame (the loop body of
`prepare_download_tasks`).  The group defaults to `"Sin_grupo"` and
the session to `f"Sesion_{index+1}"` when the cell is absent (the
`'Sin_sesion'` default passed to `row.get` is dead: the `pd.notna`
test already sent absent cells to the else-branch). -/
def tasks_for_row (output_folder : String) (index : Nat) (row : Row) : List Task :=
  let grupo := clean_filename (some ((row.grupo).getD ("Sin_grupo")))
  let sesion := clean_filename (some ((row.sesion).getD (("Sesion_") ++ Nat.repr (index + 1))))
  let session_folder := os_path_join output_folder grupo
  slot_task session_folder grupo sesion row.asistencia ("asistencia") ++
    slot_task session_folder grupo sesion row.foto_inicial ("foto_inicial") ++
    slot_task session_folder grupo sesion row.foto_final ("foto_final")

/-- Model of `EvidenciasDownloader.prepare_download_tasks`: the task
list over all rows (row index is the default zero-based RangeIndex of
`df.iterrows()`), with `total` incremented once per emitted task. -/
def prepare_download_tasks (df : List Row) (output_folder : String) (stats : Stats) :
    List Task × Stats :=
  let tasks := (df.enum.map (fun p => tasks_for_row output_folder p.1 p.2)).flatten
  (tasks, stats.addTotal tasks.length)

/-! ## Orchestrated execution (download_with_threads)

Each worker runs `download_single_file` on one task; the only shared
state is the counter record, mutated under one lock, so the final
counters equal those of a sequential fold.  The environment function
supplies the network and conversion oracles of the i-th task. -/

def run_tasks (convert_files : Bool) (env : Nat → NetResult × Bool) :
    Nat → List Task → FS → Stats → FS × Stats
  | _, [], fs, stats => (fs, stats)
  | i, t :: rest, fs, stats =>
    let r := download_single_file convert_files t.url t.filename t.folder_path
      (env i).1 (env i).2 fs stats
    run_tasks convert_files env (i + 1) rest r.fs r.stats

/-- One pipeline run over an already parsed manifest: derive the tasks
(counting `total`), then execute them all. -/
def pipeline (convert_files : Bool) (df : List Row) (output_folder : String)
    (env : Nat → NetResult × Bool) (fs0 : FS) : FS × Stats :=
  let p := prepare_download_tasks df output_folder Stats.zero
  run_tasks convert_files env 0 p.1 fs0 p.2

/-! ## Helper lemmas: split on dot versus suffix after the last dot -/

/-- The characters the accent table replaces. -/
def accentKeys : List Char :=
  ['ó', 'ú', 'í', 'á', 'é', 'ñ', 'ü', 'Ó', 'Ú', 'Í', 'Á', 'É', 'Ñ', 'Ü']

lemma replAccent_of_not_key (c : Char) (h : c ∉ accentKeys) : replAccent c = c := by
  unfold replAccent
  rw [if_neg (fun hc => h (by rw [hc]; decide))]
  rw [if_neg (fun hc => h (by rw [hc]; decide))]
  rw [if_neg (fun hc => h (by rw [hc]; decide))]
  rw [if_neg (fun hc => h (by rw [hc]; decide))]
  rw [if_neg (fun hc => h (by rw [hc]; decide))]
  rw [if_neg (fun hc => h (by rw [hc]; decide))]
  rw [if_neg (fun hc => h (by rw [hc]; decide))]
  rw [if_neg (fun hc => h (by rw [hc]; decide))]
  rw [if_neg (fun hc => h (by rw [hc]; decide))]
  rw [if_neg (fun hc => h (by rw [hc]; decide))]
  rw [if_neg (fun hc => h (by rw [hc]; decide))]
  rw [if_neg (fun hc => h (by rw [hc]; decide))]
  rw [if_neg (fun hc => h (by rw [hc]; decide))]
  rw [if_neg (fun hc => h (by rw [hc]; decide))]

lemma replAccent_key_atlas : ∀ c ∈ accentKeys,
    replAccent (replAccent c) = replAccent c ∧ replAccent c ∉ invalid_chars := by decide

lemma replAccent_idem (c : Char) : replAccent (replAccent c) = replAccent c := by
  by_cases h : c ∈ accentKeys
  · exact (replAccent_key_atlas c h).1
  · rw [replAccent_of_not_key c h, replAccent_of_not_key c h]

lemma replInvalid_not_invalid (c : Char) : replInvalid c ∉ invalid_chars := by
  by_cases h : c ∈ invalid_chars
  · rw [replInvalid, if_pos h]
    decide
  · rw [replInvalid, if_neg h]
    exact h

lemma replInvalid_of_not_invalid (c : Char) (h : c ∉ invalid_chars) : replInvalid c = c := by
  rw [replInvalid, if_neg h]

/-- Every character produced by the two replacement passes is fixed by
both of them (so the sanitizer is idempotent character-wise). -/
lemma sanitized_char_fixed (c : Char) :
    replAccent (replInvalid (replAccent c)) = replInvalid (replAccent c) ∧
      replInvalid (replInvalid (replAccent c)) = replInvalid (replAccent c) := by
  by_cases h : replAccent c ∈ invalid_chars
  · rw [replInvalid, if_pos h]
    constructor <;> decide
  · rw [replInvalid_of_not_invalid _ h]
    refine ⟨replAccent_idem c, ?_⟩
    exact replInvalid_of_not_invalid _ h

lemma clean_filename_data (s : String) (hs : ¬ s = "") :
    (clean_filename (some s)).data = (((s.data).map replAccent).map replInvalid).take 200 := by
  rw [clean_filename, if_neg hs]

lemma clean_filename_mem (s : String) (hs : ¬ s = "") (c : Char)
    (hc : c ∈ (clean_filename (some s)).data) :
    ∃ c0, c = replInvalid (replAccent c0) := by
  rw [clean_filename_data s hs] at hc
  have hc2 := List.mem_of_mem_take hc
  rw [List.map_map] at hc2
  rcases List.mem_map.mp hc2 with ⟨c0, _, hc0⟩
  exact ⟨c0, hc0.symm⟩

lemma string_ne_empty_iff_data (s : String) : ¬ s = "" ↔ s.data ≠ [] := by
  constructor
  · intro h hd
    exact h (congrArg String.mk hd)
  · intro h hs
    rw [hs] at h
    exact h rfl

/-! ## Helper lemmas: counters -/

/-- `post_process_file` touches only the conversion counters. -/
lemma post_process_file_counters (cf : Bool) (fp : String) (ok : Bool) (fs : FS) (st : Stats) :
    ((post_process_file cf fp ok fs st).2.2).total = st.total ∧
    ((post_process_file cf fp ok fs st).2.2).successful = st.successful ∧
    ((post_process_file cf fp ok fs st).2.2).failed = st.failed ∧
    ((post_process_file cf fp ok fs st).2.2).skipped = st.skipped := by
  unfold post_process_file
  dsimp only
  split_ifs <;>
    simp [Stats.incConverted, Stats.incConversionFailed]

/-- On a non-empty URL, one `download_single_file` call adds exactly
one to `successful + failed + skipped` and leaves `total` alone. -/
lemma download_single_file_counters (cf : Bool) (url fn fol : String) (net : NetResult)
    (ok : Bool) (fs : FS) (st : Stats) (h : ¬ url = "") :
    ((download_single_file cf url fn fol net ok fs st).stats).successful +
        ((download_single_file cf url fn fol net ok fs st).stats).failed +
        ((download_single_file cf url fn fol net ok fs st).stats).skipped =
      st.successful + st.failed + st.skipped + 1 ∧
    ((download_single_file cf url fn fol net ok fs st).stats).total = st.total := by
  unfold download_single_file
  rw [if_neg h]
  dsimp only
  split_ifs with h1 h2
  · simp [Stats.incSkipped]
    omega
  · simp [Stats.incSkipped]
    omega
  · cases net with
    | connErr => simp [Stats.incFailed]; omega
    | streamErr n => simp [Stats.incFailed]; omega
    | ok n =>
      dsimp only
      by_cases hn : n = 0
      · rw [if_pos hn]
        simp [Stats.incFailed]
        omega
      · rw [if_neg hn]
        have hpp := post_process_file_counters cf
          (os_path_join fol fn) ok
          (FS.rename (FS.write fs (os_path_join fol fn ++ (".tmp")) n)
            (os_path_join fol fn ++ (".tmp")) (os_path_join fol fn)) st
        simp only [Stats.incSuccessful]
        omega

/-- Every task emitted by the task deriver carries a non-empty URL. -/
lemma prepare_tasks_url_ne (df : List Row) (out : String) (st : Stats) :
    ∀ t ∈ (prepare_download_tasks df out st).1, ¬ t.url = "" := by
  intro t ht
  unfold prepare_download_tasks at ht
  simp only [List.mem_flatten, List.mem_map] at ht
  rcases ht with ⟨l, ⟨p, _, hp⟩, hm⟩
  rw [← hp] at hm
  unfold tasks_for_row at hm
  rw [List.mem_append, List.mem_append] at hm
  have hslot : ∀ sf g se cell tp, t ∈ slot_task sf g se cell tp → ¬ t.url = "" := by
    intro sf g se cell tp hmem
    cases cell with
    | none => simp [slot_task] at hmem
    | some v =>
      by_cases hv : py_strip v = ""
      · simp [slot_task, hv] at hmem
      · simp [slot_task, hv] at hmem
        rw [hmem]
        exact hv
  rcases hm with (hm | hm) | hm
  · exact hslot _ _ _ _ _ hm
  · exact hslot _ _ _ _ _ hm
  · exact hslot _ _ _ _ _ hm

/-- Executing a list of tasks with non-empty URLs adds exactly the
number of tasks to `successful + failed + skipped` and leaves `total`
unchanged. -/
lemma run_tasks_counters (cf : Bool) (env : Nat → NetResult × Bool) :
    ∀ (tasks : List Task) (i : Nat) (fs : FS) (st : Stats),
      (∀ t ∈ tasks, ¬ t.url = "") →
      ((run_tasks cf env i tasks fs st).2).successful +
          ((run_tasks cf env i tasks fs st).2).failed +
          ((run_tasks cf env i tasks fs st).2).skipped =
        st.successful + st.failed + st.skipped + tasks.length ∧
      ((run_tasks cf env i tasks fs st).2).total = st.total := by
  intro tasks
  induction tasks with
  | nil => intro i fs st _; simp [run_tasks]
  | cons t rest ih =>
    intro i fs st hall
    have ht : ¬ t.url = "" := hall t (List.mem_cons_self t rest)
    have hrest : ∀ x ∈ rest, ¬ x.url = "" := fun x hx => hall x (List.mem_cons_of_mem t hx)
    have hstep := download_single_file_counters cf t.url t.filename t.folder_path
      (env i).1 (env i).2 fs st ht
    have htail := ih (i + 1)
      (download_single_file cf t.url t.filename t.folder_path (env i).1 (env i).2 fs st).fs
      (download_single_file cf t.url t.filename t.folder_path (env i).1 (env i).2 fs st).stats
      hrest
    rw [run_tasks]
    simp only [List.length_cons]
    omega

/-! ## More sanitizer helpers -/

lemma clean_filename_eq (s : String) (hs : ¬ s = "") :
    clean_filename (some s) = String.mk ((((s.data).map replAccent).map replInvalid).take 200) := by
  rw [clean_filename, if_neg hs]

lemma clean_filename_some_ne (s : String) : ¬ clean_filename (some s) = "" := by
  by_cases hs : s = ""
  · rw [hs]
    decide
  · rw [string_ne_empty_iff_data, clean_filename_data s hs]
    have hd : s.data ≠ [] := (string_ne_empty_iff_data s).mp hs
    cases he : s.data with
    | nil => exact absurd he hd
    | cons c cs => simp [he]

/-! ## Claim theorems -/

/-- C1: at pipeline completion the shared counters satisfy
`total = successful + failed + skipped`, with `total` determined once
and for all at derivation time (one increment per derived task); the
`converted` and `conversion_failed` counters do not feed `total`. -/
theorem C1_stats_invariant : ∀ (cf : Bool) (df : List Row) (out : String)
    (env : Nat → NetResult × Bool) (fs0 : FS),
    ((pipeline cf df out env fs0).2).total =
        ((pipeline cf df out env fs0).2).successful +
          ((pipeline cf df out env fs0).2).failed +
          ((pipeline cf df out env fs0).2).skipped ∧
    ((pipeline cf df out env fs0).2).total =
        (prepare_download_tasks df out Stats.zero).1.length := by
  intro cf df out env fs0
  have hurl := prepare_tasks_url_ne df out Stats.zero
  have hrun := run_tasks_counters cf env (prepare_download_tasks df out Stats.zero).1 0 fs0
    (prepare_download_tasks df out Stats.zero).2 hurl
  have hst : (prepare_download_tasks df out Stats.zero).2.total =
      (prepare_download_tasks df out Stats.zero).1.length ∧
      (prepare_download_tasks df out Stats.zero).2.successful = 0 ∧
      (prepare_download_tasks df out Stats.zero).2.failed = 0 ∧
      (prepare_download_tasks df out Stats.zero).2.skipped = 0 := by
    unfold prepare_download_tasks
    dsimp only
    simp [Stats.addTotal, Stats.zero]
  unfold pipeline
  dsimp only
  omega

/-- C5 (amended): the sanitizer always returns a non-empty string of
at most 200 characters, containing no invalid filename character and
no character of the accent table (each was replaced by its ASCII
equivalent); a null or empty label yields the fixed placeholder
`"archivo_sin_nombre"` (the source placeholder; the claim's
`"unnamed_file"` does not occur in the code). -/
theorem C5_clean_filename_safe : ∀ L : Option String,
    ¬ clean_filename L = "" ∧
    (clean_filename L).length ≤ 200 ∧
    (∀ c, c ∈ (clean_filename L).data → ¬ c ∈ invalid_chars ∧ replAccent c = c) ∧
    ((L = none ∨ L = some "") → clean_filename L = ("archivo_sin_nombre")) := by
  intro L
  cases L with
  | none => exact ⟨by decide, by decide, by decide, fun _ => rfl⟩
  | some s =>
    by_cases hs : s = ""
    · rw [hs]
      exact ⟨by decide, by decide, by decide, fun _ => rfl⟩
    · refine ⟨clean_filename_some_ne s, ?_, ?_, ?_⟩
      · show (clean_filename (some s)).data.length ≤ 200
        rw [clean_filename_data s hs]
        exact List.length_take_le 200 _
      · intro c hc
        rcases clean_filename_mem s hs c hc with ⟨c0, rfl⟩
        exact ⟨replInvalid_not_invalid (replAccent c0), (sanitized_char_fixed c0).1⟩
      · intro h
        rcases h with h | h
        · exact absurd h (by simp)
        · have : s = "" := by
            injection h
          exact absurd this hs

/-- C5 counterexample: on the empty input the sanitizer returns
`"archivo_sin_nombre"`, not the `"unnamed_file"` stated by the claim. -/
theorem C5_counterexample :
    clean_filename none = ("archivo_sin_nombre") ∧
      ¬ clean_filename none = ("unnamed_file") := by decide

/-- C5 witness. -/
theorem C5_clean_filename_safe_witness :
    (¬ clean_filename (some ("a<b")) = "") ∧
    ('b' ∈ (clean_filename (some ("a<b"))).data ∧
      ¬ 'b' ∈ invalid_chars ∧ replAccent 'b' = 'b') ∧
    (((none : Option String) = none ∨ (none : Option String) = some "") ∧
      clean_filename none = ("archivo_sin_nombre")) :=
  ⟨(C5_clean_filename_safe (some ("a<b"))).1,
    ⟨by decide, (C5_clean_filename_safe (some ("a<b"))).2.2.1 'b' (by decide)⟩,
    ⟨Or.inl rfl, (C5_clean_filename_safe none).2.2.2 (Or.inl rfl)⟩⟩

/-- C9: the sanitizer is idempotent: its output contains no character
it would replace, is within the length cap and is non-empty, so a
second pass changes nothing. -/
theorem C9_clean_filename_idempotent : ∀ L : Option String,
    clean_filename (some (clean_filename L)) = clean_filename L := by
  have hplaceholder : clean_filename (some ("archivo_sin_nombre")) = ("archivo_sin_nombre") := by
    decide
  intro L
  cases L with
  | none => exact hplaceholder
  | some s =>
    by_cases hs : s = ""
    · rw [hs]
      have h0 : clean_filename (some ("")) = ("archivo_sin_nombre") := by decide
      rw [h0]
      exact hplaceholder
    · have hne : ¬ clean_filename (some s) = "" := clean_filename_some_ne s
      rw [clean_filename_eq (clean_filename (some s)) hne]
      have hfix : ∀ c ∈ (clean_filename (some s)).data, replInvalid (replAccent c) = c := by
        intro c hc
        rcases clean_filename_mem s hs c hc with ⟨c0, rfl⟩
        rw [(sanitized_char_fixed c0).1, (sanitized_char_fixed c0).2]
      have hmapmap : (((clean_filename (some s)).data).map replAccent).map replInvalid =
          (clean_filename (some s)).data := by
        rw [List.map_map]
        have hcg := List.map_congr_left (f := replInvalid ∘ replAccent) (g := id)
          (fun c hc => hfix c hc)
        rw [hcg, List.map_id]
      have hlen : (clean_filename (some s)).data.length ≤ 200 := by
        rw [clean_filename_data s hs]
        exact List.length_take_le 200 _
      rw [hmapmap, List.take_of_length_le hlen]

/-- Structure of every task emitted by one column slot. -/
lemma slot_task_fields (sf g se : String) (cell : Option String) (tp : String) (t : Task)
    (ht : t ∈ slot_task sf g se cell tp) :
    t.grupo = g ∧ t.sesion = se ∧ t.folder_path = sf ∧ t.tipo = tp ∧
      t.filename = se ++ ("_") ++ tp ++ get_file_extension t.url := by
  cases cell with
  | none => simp [slot_task] at ht
  | some v =>
    by_cases hv : py_strip v = ""
    · simp [slot_task, hv] at ht
    · simp [slot_task, hv] at ht
      subst ht
      exact ⟨rfl, rfl, rfl, rfl, rfl⟩

/-- Concrete manifest row used by witnesses: absent group and session,
one attendance URL. -/
def rowW : Row := ⟨none, none, some ("http://h/x.png"), none, none⟩

/-- The task the deriver emits for `rowW` at index 0. -/
def taskW : Task :=
  ⟨("http://h/x.png"), ("Sesion_1_asistencia.png"), ("out/Sin_grupo"),
    ("Sin_grupo"), ("Sesion_1"), ("asistencia")⟩

/-- Concrete empty filesystem used by witnesses. -/
def fsW : FS := fun _ => none

/-- C6 counterexample: with both fields absent the derived task uses
the defaults `"Sin_grupo"` and `"Sesion_1"`, not the `"no_group"` and
`"session_1"` stated by the claim. -/
theorem C6_counterexample :
    (tasks_for_row ("out") 0 rowW).map (fun t => t.grupo) = [("Sin_grupo")] ∧
    (tasks_for_row ("out") 0 rowW).map (fun t => t.sesion) = [("Sesion_1")] ∧
    ¬ (("Sin_grupo") : String) = ("no_group") ∧
    ¬ (("Sesion_1") : String) = ("session_1") := by decide

/-- C6 (amended): the task deriver reads the group-code and session
cells with the defaults `"Sin_grupo"` and `"Sesion_<row-index+1>"`
when absent (not `"no_group"` / `"session_<row-index+1>"`), sanitizes
both, and places every task of the row in `outputRoot/group`. -/
theorem C6_row_defaults : ∀ (out : String) (idx : Nat) (row : Row) (t : Task),
    t ∈ tasks_for_row out idx row →
    t.grupo = clean_filename (some ((row.grupo).getD ("Sin_grupo"))) ∧
    t.sesion = clean_filename (some ((row.sesion).getD (("Sesion_") ++ Nat.repr (idx + 1)))) ∧
    t.folder_path = os_path_join out t.grupo := by
  intro out idx row t ht
  unfold tasks_for_row at ht
  dsimp only at ht
  rw [List.mem_append, List.mem_append] at ht
  rcases ht with (h | h) | h <;>
    · have hf := slot_task_fields _ _ _ _ _ t h
      refine ⟨hf.1, hf.2.1, ?_⟩
      rw [hf.2.2.1, hf.1]

/-- C6 witness. -/
theorem C6_row_defaults_witness :
    (taskW ∈ tasks_for_row ("out") 0 rowW) ∧
    (taskW.grupo = clean_filename (some ((rowW.grupo).getD ("Sin_grupo"))) ∧
      taskW.sesion = clean_filename (some ((rowW.sesion).getD (("Sesion_") ++ Nat.repr 1))) ∧
      taskW.folder_path = os_path_join ("out") taskW.grupo) :=
  ⟨by decide, C6_row_defaults ("out") 0 rowW taskW (by decide)⟩

/-- C8: normalization is a pure pass-through when the conversion flag
is off or the (lowercased) extension is not one of the two normalized
source formats — in particular on its own `.jpg` output: same path,
unchanged filesystem, unchanged counters. -/
theorem C8_post_process_passthrough : ∀ (cf : Bool) (fp : String) (ok : Bool) (fs : FS)
    (st : Stats),
    (cf = false ∨
      ¬ (str_lower (os_path_splitext fp).2 = (".heic") ∨
          str_lower (os_path_splitext fp).2 = (".pdf"))) →
    post_process_file cf fp ok fs st = (fp, fs, st) := by
  intro cf fp ok fs st h
  unfold post_process_file
  dsimp only
  by_cases hcf : cf = false
  · rw [if_pos hcf]
  · rw [if_neg hcf]
    rcases h with h | h
    · exact absurd h hcf
    · rw [if_neg (fun ha => h (Or.inl ha)), if_neg (fun hb => h (Or.inr hb))]

/-- Concrete non-empty filesystem used by the C8 witness. -/
def fsW8 : FS := fun _ => some 3

/-- C8 witness. -/
theorem C8_post_process_passthrough_witness :
    (¬ (str_lower (os_path_splitext ("out/a.jpg")).2 = (".heic") ∨
        str_lower (os_path_splitext ("out/a.jpg")).2 = (".pdf"))) ∧
    post_process_file true ("out/a.jpg") true fsW8 Stats.zero = (("out/a.jpg"), fsW8, Stats.zero) :=
  ⟨by decide,
    C8_post_process_passthrough true ("out/a.jpg") true fsW8 Stats.zero (Or.inr (by decide))⟩

/-- C10: a call with an empty URL returns `False` at once — no
network request, no filesystem change, no counter change — and the
branch is unreachable from derived tasks, whose URLs are never
empty. -/
theorem C10_empty_url_noop : ∀ (cf : Bool) (fn fol : String) (net : NetResult) (ok : Bool)
    (fs : FS) (st : Stats),
    download_single_file cf ("") fn fol net ok fs st = ⟨false, fs, st, false⟩ ∧
    (∀ (df : List Row) (out : String) (st0 : Stats) (t : Task),
      t ∈ (prepare_download_tasks df out st0).1 → ¬ t.url = "") := by
  intro cf fn fol net ok fs st
  constructor
  · unfold download_single_file
    rw [if_pos rfl]
  · intro df out st0 t ht
    exact prepare_tasks_url_ne df out st0 t ht

/-- C10 witness. -/
theorem C10_empty_url_noop_witness :
    download_single_file true ("") ("f.bin") ("out") NetResult.connErr true fsW Stats.zero =
        ⟨false, fsW, Stats.zero, false⟩ ∧
    (taskW ∈ (prepare_download_tasks [rowW] ("out") Stats.zero).1 ∧ ¬ taskW.url = "") :=
  ⟨(C10_empty_url_noop true ("f.bin") ("out") NetResult.connErr true fsW Stats.zero).1,
    ⟨by decide,
      (C10_empty_url_noop true ("f.bin") ("out") NetResult.connErr true fsW Stats.zero).2
        [rowW] ("out") Stats.zero taskW (by decide)⟩⟩

/-- A path never equals its own temp sibling. -/
lemma self_ne_append_tmp (s : String) : ¬ s = s ++ (".tmp") := by
  intro h
  have hl := congrArg String.length h
  rw [String.length_append] at hl
  have : (".tmp" : String).length = 4 := by decide
  omega

/-- C2: the idempotency check: when conversion is on, the extension is
a normalized format and the converted `.jpg` target exists non-empty —
or the original target exists non-empty and the file type needs no
normalization — the call reports a skip and issues no request. -/
theorem C2_skip_existing : ∀ (cf : Bool) (url fn fol : String) (net : NetResult) (ok : Bool)
    (fs : FS) (st : Stats),
    ¬ url = "" →
    ((cf = true ∧
        (str_lower (os_path_splitext fn).2 = (".heic") ∨
          str_lower (os_path_splitext fn).2 = (".pdf")) ∧
        os_path_exists fs (os_path_join fol ((os_path_splitext fn).1 ++ (".jpg"))) = true ∧
        0 < os_path_getsize fs (os_path_join fol ((os_path_splitext fn).1 ++ (".jpg")))) ∨
      (os_path_exists fs (os_path_join fol fn) = true ∧
        0 < os_path_getsize fs (os_path_join fol fn) ∧
        (cf = false ∨
          ¬ (str_lower (os_path_splitext fn).2 = (".heic") ∨
              str_lower (os_path_splitext fn).2 = (".pdf"))))) →
    download_single_file cf url fn fol net ok fs st = ⟨true, fs, st.incSkipped, false⟩ := by
  intro cf url fn fol net ok fs st h hcond
  unfold download_single_file
  rw [if_neg h]
  dsimp only
  rcases hcond with hA | hB
  · rw [if_pos hA]
  · by_cases hA : cf = true ∧
        (str_lower (os_path_splitext fn).2 = (".heic") ∨
          str_lower (os_path_splitext fn).2 = (".pdf")) ∧
        os_path_exists fs (os_path_join fol ((os_path_splitext fn).1 ++ (".jpg"))) = true ∧
        0 < os_path_getsize fs (os_path_join fol ((os_path_splitext fn).1 ++ (".jpg")))
    · rw [if_pos hA]
    · rw [if_neg hA, if_pos hB]

/-- Filesystem with an existing converted target used by the C2 witness. -/
def fsW2 : FS := fun p => if p = ("out/G/s_foto.jpg") then some 10 else none

/-- C2 witness. -/
theorem C2_skip_existing_witness :
    (¬ ("http://h/s.heic" : String) = "") ∧
    (true = true ∧
      (str_lower (os_path_splitext ("s_foto.heic")).2 = (".heic") ∨
        str_lower (os_path_splitext ("s_foto.heic")).2 = (".pdf")) ∧
      os_path_exists fsW2 (os_path_join ("out/G")
        ((os_path_splitext ("s_foto.heic")).1 ++ (".jpg"))) = true ∧
      0 < os_path_getsize fsW2 (os_path_join ("out/G")
        ((os_path_splitext ("s_foto.heic")).1 ++ (".jpg")))) ∧
    download_single_file true ("http://h/s.heic") ("s_foto.heic") ("out/G")
        NetResult.connErr true fsW2 Stats.zero = ⟨true, fsW2, Stats.zero.incSkipped, false⟩ :=
  ⟨by decide, by decide,
    C2_skip_existing true ("http://h/s.heic") ("s_foto.heic") ("out/G") NetResult.connErr true
      fsW2 Stats.zero (by decide) (Or.inl (by decide))⟩

/-- Filesystem holding a pre-existing zero-byte final file, used by the
C3 counterexample. -/
def fsW3 : FS := fun p => if p = ("out/b.bin") then some 0 else none

/-- C3 counterexample: a stream that fails after 5 bytes marks the task
failed but leaves the partial temp file `out/a.bin.tmp` on disk (the
claim says the temp sibling is removed); and with a pre-existing
zero-byte file at the final path a zero-byte body leaves that file in
place (the claim says no file exists at the final target path). -/
theorem C3_counterexample :
    ((download_single_file true ("http://h/a.bin") ("a.bin") ("out") (NetResult.streamErr 5)
        true fsW Stats.zero).stats.failed = 1 ∧
      (download_single_file true ("http://h/a.bin") ("a.bin") ("out") (NetResult.streamErr 5)
        true fsW Stats.zero).fs ("out/a.bin.tmp") = some 5) ∧
    ((download_single_file true ("http://h/b.bin") ("b.bin") ("out") (NetResult.ok 0)
        true fsW3 Stats.zero).stats.failed = 1 ∧
      (download_single_file true ("http://h/b.bin") ("b.bin") ("out") (NetResult.ok 0)
        true fsW3 Stats.zero).fs ("out/b.bin") = some 0) := by decide

/-- C3 (amended): a download whose stream fails partway or completes
with a zero-byte body is counted `failed` and the final target path is
left exactly as it was (it is only ever created by renaming a verified
non-empty temp file); a completed zero-byte body removes the temp
sibling, but a mid-stream failure leaves the partial temp file
behind. -/
theorem C3_failed_download_files : ∀ (cf : Bool) (url fn fol : String) (net : NetResult)
    (ok : Bool) (fs : FS) (st : Stats) (n : Nat),
    (net = NetResult.streamErr n ∨ net = NetResult.ok 0) →
    (download_single_file cf url fn fol net ok fs st).netUsed = true →
    (download_single_file cf url fn fol net ok fs st).ret = false ∧
    (download_single_file cf url fn fol net ok fs st).stats = st.incFailed ∧
    (download_single_file cf url fn fol net ok fs st).fs (os_path_join fol fn) =
      fs (os_path_join fol fn) ∧
    (net = NetResult.ok 0 →
      (download_single_file cf url fn fol net ok fs st).fs
        ((os_path_join fol fn) ++ (".tmp")) = none) ∧
    (net = NetResult.streamErr n →
      (download_single_file cf url fn fol net ok fs st).fs
        ((os_path_join fol fn) ++ (".tmp")) = some n) := by
  intro cf url fn fol net ok fs st n hnet hused
  by_cases hu : url = ""
  · unfold download_single_file at hused
    rw [if_pos hu] at hused
    simp at hused
  · unfold download_single_file at hused ⊢
    rw [if_neg hu] at hused ⊢
    dsimp only at hused ⊢
    by_cases h1 : cf = true ∧
        (str_lower (os_path_splitext fn).2 = (".heic") ∨
          str_lower (os_path_splitext fn).2 = (".pdf")) ∧
        os_path_exists fs (os_path_join fol ((os_path_splitext fn).1 ++ (".jpg"))) = true ∧
        0 < os_path_getsize fs (os_path_join fol ((os_path_splitext fn).1 ++ (".jpg")))
    · rw [if_pos h1] at hused
      simp at hused
    · rw [if_neg h1] at hused ⊢
      by_cases h2 : os_path_exists fs (os_path_join fol fn) = true ∧
          0 < os_path_getsize fs (os_path_join fol fn) ∧
          (cf = false ∨
            ¬ (str_lower (os_path_splitext fn).2 = (".heic") ∨
                str_lower (os_path_splitext fn).2 = (".pdf")))
      · rw [if_pos h2] at hused
        simp at hused
      · rw [if_neg h2] at hused ⊢
        rcases hnet with hnet | hnet <;> subst hnet
        · dsimp only
          refine ⟨rfl, rfl, ?_, ?_, ?_⟩
          · rw [FS.write, if_neg (self_ne_append_tmp (os_path_join fol fn))]
          · intro hcontra
            exact NetResult.noConfusion hcontra
          · intro _
            rw [FS.write, if_pos rfl]
        · dsimp only
          rw [if_pos rfl]
          refine ⟨rfl, rfl, ?_, ?_, ?_⟩
          · simp only [FS.remove, FS.write]
            rw [if_neg (self_ne_append_tmp (os_path_join fol fn)),
              if_neg (self_ne_append_tmp (os_path_join fol fn))]
          · intro _
            simp [FS.remove]
          · intro hcontra
            exact NetResult.noConfusion hcontra

/-- C3 witness. -/
theorem C3_failed_download_files_witness :
    ((NetResult.streamErr 7 = NetResult.streamErr 7 ∨
        NetResult.streamErr 7 = NetResult.ok 0) ∧
      (download_single_file true ("http://h/a.bin") ("a.bin") ("out") (NetResult.streamErr 7)
        true fsW Stats.zero).netUsed = true) ∧
    ((download_single_file true ("http://h/a.bin") ("a.bin") ("out") (NetResult.streamErr 7)
        true fsW Stats.zero).ret = false ∧
      (download_single_file true ("http://h/a.bin") ("a.bin") ("out") (NetResult.streamErr 7)
        true fsW Stats.zero).stats = Stats.zero.incFailed ∧
      (download_single_file true ("http://h/a.bin") ("a.bin") ("out") (NetResult.streamErr 7)
        true fsW Stats.zero).fs (os_path_join ("out") ("a.bin")) =
        fsW (os_path_join ("out") ("a.bin")) ∧
      (NetResult.streamErr 7 = NetResult.ok 0 →
        (download_single_file true ("http://h/a.bin") ("a.bin") ("out") (NetResult.streamErr 7)
          true fsW Stats.zero).fs ((os_path_join ("out") ("a.bin")) ++ (".tmp")) = none) ∧
      (NetResult.streamErr 7 = NetResult.streamErr 7 →
        (download_single_file true ("http://h/a.bin") ("a.bin") ("out") (NetResult.streamErr 7)
          true fsW Stats.zero).fs ((os_path_join ("out") ("a.bin")) ++ (".tmp")) = some 7)) :=
  ⟨⟨Or.inl rfl, by decide⟩,
    C3_failed_download_files true ("http://h/a.bin") ("a.bin") ("out") (NetResult.streamErr 7)
      true fsW Stats.zero 7 (Or.inl rfl) (by decide)⟩

/-- C4: when a committed file's normalization fails (conversion oracle
reports failure on a `.heic`/`.pdf` file), the original file stays at
its committed path with its downloaded size, `conversion_failed` is
incremented, and the task is still counted `successful`. -/
theorem C4_conversion_failure_kept : ∀ (url fn fol : String) (n : Nat) (fs : FS) (st : Stats),
    (str_lower (os_path_splitext (os_path_join fol fn)).2 = (".heic") ∨
      str_lower (os_path_splitext (os_path_join fol fn)).2 = (".pdf")) →
    0 < n →
    (download_single_file true url fn fol (NetResult.ok n) false fs st).netUsed = true →
    (download_single_file true url fn fol (NetResult.ok n) false fs st).ret = true ∧
    (download_single_file true url fn fol (NetResult.ok n) false fs st).stats =
      (st.incConversionFailed).incSuccessful ∧
    (download_single_file true url fn fol (NetResult.ok n) false fs st).fs
      (os_path_join fol fn) = some n := by
  intro url fn fol n fs st hext hn hused
  by_cases hu : url = ""
  · unfold download_single_file at hused
    rw [if_pos hu] at hused
    simp at hused
  · unfold download_single_file at hused ⊢
    rw [if_neg hu] at hused ⊢
    dsimp only at hused ⊢
    by_cases h1 : (true : Bool) = true ∧
        (str_lower (os_path_splitext fn).2 = (".heic") ∨
          str_lower (os_path_splitext fn).2 = (".pdf")) ∧
        os_path_exists fs (os_path_join fol ((os_path_splitext fn).1 ++ (".jpg"))) = true ∧
        0 < os_path_getsize fs (os_path_join fol ((os_path_splitext fn).1 ++ (".jpg")))
    · rw [if_pos h1] at hused
      simp at hused
    · rw [if_neg h1] at hused ⊢
      by_cases h2 : os_path_exists fs (os_path_join fol fn) = true ∧
          0 < os_path_getsize fs (os_path_join fol fn) ∧
          ((true : Bool) = false ∨
            ¬ (str_lower (os_path_splitext fn).2 = (".heic") ∨
                str_lower (os_path_splitext fn).2 = (".pdf")))
      · rw [if_pos h2] at hused
        simp at hused
      · rw [if_neg h2] at hused ⊢
        rw [if_neg (by omega : ¬ n = 0)]
        have hpp : post_process_file true (os_path_join fol fn) false
            (FS.rename (FS.write fs ((os_path_join fol fn) ++ (".tmp")) n)
              ((os_path_join fol fn) ++ (".tmp")) (os_path_join fol fn)) st =
            ((os_path_join fol fn),
              FS.rename (FS.write fs ((os_path_join fol fn) ++ (".tmp")) n)
                ((os_path_join fol fn) ++ (".tmp")) (os_path_join fol fn),
              st.incConversionFailed) := by
          unfold post_process_file
          dsimp only
          rw [if_neg (by simp)]
          rcases hext with hext | hext
          · rw [if_pos hext, if_neg (by simp)]
          · by_cases hh : str_lower (os_path_splitext (os_path_join fol fn)).2 = (".heic")
            · rw [if_pos hh, if_neg (by simp)]
            · rw [if_neg hh, if_pos hext, if_neg (by simp)]
        rw [hpp]
        refine ⟨rfl, rfl, ?_⟩
        simp [FS.rename, FS.write]

/-- C4 witness. -/
theorem C4_conversion_failure_kept_witness :
    ((str_lower (os_path_splitext (os_path_join ("out") ("a.heic"))).2 = (".heic") ∨
        str_lower (os_path_splitext (os_path_join ("out") ("a.heic"))).2 = (".pdf")) ∧
      0 < 7 ∧
      (download_single_file true ("http://h/a.heic") ("a.heic") ("out") (NetResult.ok 7)
        false fsW Stats.zero).netUsed = true) ∧
    ((download_single_file true ("http://h/a.heic") ("a.heic") ("out") (NetResult.ok 7)
        false fsW Stats.zero).ret = true ∧
      (download_single_file true ("http://h/a.heic") ("a.heic") ("out") (NetResult.ok 7)
        false fsW Stats.zero).stats = (Stats.zero.incConversionFailed).incSuccessful ∧
      (download_single_file true ("http://h/a.heic") ("a.heic") ("out") (NetResult.ok 7)
        false fsW Stats.zero).fs (os_path_join ("out") ("a.heic")) = some 7) :=
  ⟨⟨by decide, by decide, by decide⟩,
    C4_conversion_failure_kept ("http://h/a.heic") ("a.heic") ("out") 7 fsW Stats.zero
      (by decide) (by decide) (by decide)⟩

end Evidencias
